import Mathlib

/-!
Verification of the AI tool-dispatch pipeline of `features/ai_tools.py`
(personal_dash repository).

The embedding translates the pipeline into pure Lean functions:

* Parsed JSON documents become values of the inductive type `JVal`;
  `json_loads` is a strict recursive-descent parser modelling Python
  `json.loads` (same whitespace set, escape handling, rejection of control
  characters inside strings, last-duplicate-key-wins objects).  The
  non-standard literals `NaN` / `Infinity`, which Python accepts, are omitted:
  no claim depends on them.
* `json.dumps` with default separators and `ensure_ascii=True` is modelled by
  `json_dumps`.
* Exceptions are explicit: fallible steps return `Except PyErr`, where
  `PyErr` is the exception text; a Python `try/except` becomes a `match`.
* Ambient effects (the SQLite store, the loaded GGUF model, the settings
  table) are oracle parameters collected in `Oracles`; each oracle may fail,
  modelling a raised exception at that call site.
* Invocations of registry tool executors and of the store are recorded in
  explicit traces, following the call-count instrumentation the spec asks
  for.
* Python `float` values that the pipeline never inspects numerically are
  modelled over `ℚ`; `decimal.Decimal` arithmetic in `calculate_allowance`
  is modelled exactly over `ℚ` (the 28-digit context precision is not
  reproduced; no claim depends on it).
-/

/-- Exception text of a raised Python exception. -/
abbrev PyErr := String

/-- Parsed JSON values, as produced by `json.loads`: `null`, booleans,
integers, floats (over `ℚ`), strings, arrays and objects.  Objects are
association lists with unique keys in insertion order, matching Python
`dict` semantics. -/
inductive JVal where
  | null : JVal
  | boolv : Bool → JVal
  | intv : Int → JVal
  | ratv : ℚ → JVal
  | strv : String → JVal
  | arrv : List JVal → JVal
  | objv : List (String × JVal) → JVal

/-- Lookup of a key in a JSON object (Python `dict` access on the unique-key
association list). -/
def jlookup : List (String × JVal) → String → Option JVal
  | [], _ => none
  | (k, v) :: fs, key => if k = key then some v else jlookup fs key

/-- Lookup with default, modelling Python `dict.get(key, default)`. -/
def jlookupD (fs : List (String × JVal)) (key : String) (dflt : JVal) : JVal :=
  (jlookup fs key).getD dflt

/-- Insertion into a JSON object, modelling Python `d[key] = v`: an existing
key keeps its position and gets the new value, a new key is appended. -/
def insertReplace : List (String × JVal) → String → JVal → List (String × JVal)
  | [], key, v => [(key, v)]
  | (k, w) :: fs, key, v =>
      if k = key then (k, v) :: fs else (k, w) :: insertReplace fs key v

/-- Whitespace characters stripped by Python `str.strip()` (ASCII part; the
pipeline only strips model output, which is text). -/
def pyIsSpace (c : Char) : Bool :=
  c = ' ' ∨ c = '\t' ∨ c = '\n' ∨ c = '\x0d' ∨ c = '\x0b' ∨ c = '\x0c'

/-- Python `str.strip()` on a character list. -/
def pyStripList (l : List Char) : List Char :=
  ((l.dropWhile pyIsSpace).reverse.dropWhile pyIsSpace).reverse

/-- Python `str.strip()`. -/
def pyStrip (s : String) : String := String.mk (pyStripList s.data)

/-- Python `str.upper()` on one character (ASCII; the SELECT-guard only
compares against ASCII letters). -/
def pyUpperChar (c : Char) : Char :=
  if 'a' ≤ c ∧ c ≤ 'z' then Char.ofNat (c.toNat - 32) else c

/-- Python `str.upper()`. -/
def pyUpper (s : String) : String := String.mk (s.data.map pyUpperChar)

/-- Python `str.startswith`. -/
def pyStartsWith (s t : String) : Bool := List.isPrefixOf t.data s.data

/-- Substring containment on character lists, modelling Python `in` on
strings. -/
def listContainsSub : List Char → List Char → Bool
  | _, [] => true
  | [], _ => false
  | c :: cs, needle =>
      List.isPrefixOf needle (c :: cs) ∨ listContainsSub cs needle

/-- Python `needle in hay` for strings. -/
def strContains (hay needle : String) : Bool := listContainsSub hay.data needle.data

/-- Python `str.index(ch)`: index of the first occurrence, `none` models the
raised `ValueError`. -/
def pyIndexChar : List Char → Char → Option Nat
  | [], _ => none
  | c :: cs, ch =>
      if c = ch then some 0 else (pyIndexChar cs ch).map (· + 1)

/-- JSON whitespace accepted between tokens by `json.loads`. -/
def jsonWs (c : Char) : Bool := c = ' ' ∨ c = '\t' ∨ c = '\n' ∨ c = '\x0d'

/-- Drop JSON whitespace. -/
def skipWs (l : List Char) : List Char := l.dropWhile jsonWs

/-- Value of one hexadecimal digit. -/
def hexVal : Char → Option Nat
  | c =>
    if '0' ≤ c ∧ c ≤ '9' then some (c.toNat - '0'.toNat)
    else if 'a' ≤ c ∧ c ≤ 'f' then some (c.toNat - 'a'.toNat + 10)
    else if 'A' ≤ c ∧ c ≤ 'F' then some (c.toNat - 'A'.toNat + 10)
    else none

/-- Code point of a `\uXXXX` escape from its four hex digits. -/
def hex4 (a b c d : Char) : Option Nat := do
  let x ← hexVal a
  let y ← hexVal b
  let z ← hexVal c
  let w ← hexVal d
  pure (((x * 16 + y) * 16 + z) * 16 + w)

/-- Loop of the JSON string-literal scanner; the flag is `true` directly
after a backslash (escape mode).  Unescaped control characters are rejected
(`json.loads` strict mode), and a `\uXXXX` high surrogate must be followed
by a low surrogate (Lean characters are unicode scalars, so the lone
surrogates Python tolerates are rejected; they occur in no claim). -/
def parseStrLoop : Bool → List Char → Option (List Char × List Char)
  | false, [] => none
  | false, c :: cs =>
    if c = '"' then some ([], cs)
    else if c = '\\' then parseStrLoop true cs
    else if c.toNat < 0x20 then none
    else (parseStrLoop false cs).map (fun p => (c :: p.1, p.2))
  | true, '"' :: rest => (parseStrLoop false rest).map (fun p => ('"' :: p.1, p.2))
  | true, '\\' :: rest => (parseStrLoop false rest).map (fun p => ('\\' :: p.1, p.2))
  | true, '/' :: rest => (parseStrLoop false rest).map (fun p => ('/' :: p.1, p.2))
  | true, 'b' :: rest => (parseStrLoop false rest).map (fun p => ('\x08' :: p.1, p.2))
  | true, 'f' :: rest => (parseStrLoop false rest).map (fun p => ('\x0c' :: p.1, p.2))
  | true, 'n' :: rest => (parseStrLoop false rest).map (fun p => ('\n' :: p.1, p.2))
  | true, 'r' :: rest => (parseStrLoop false rest).map (fun p => ('\x0d' :: p.1, p.2))
  | true, 't' :: rest => (parseStrLoop false rest).map (fun p => ('\t' :: p.1, p.2))
  | true, 'u' :: a :: b :: c :: d :: rest =>
      (match hex4 a b c d with
       | none => none
       | some n =>
         if n < 0xd800 then
           (parseStrLoop false rest).map (fun p => (Char.ofNat n :: p.1, p.2))
         else if n ≥ 0xe000 then
           (parseStrLoop false rest).map (fun p => (Char.ofNat n :: p.1, p.2))
         else if n < 0xdc00 then
           match rest with
           | '\\' :: 'u' :: e :: f :: g :: h :: rest2 =>
               (match hex4 e f g h with
                | none => none
                | some m =>
                  if 0xdc00 ≤ m ∧ m < 0xe000 then
                    (parseStrLoop false rest2).map (fun p =>
                      (Char.ofNat (0x10000 + (n - 0xd800) * 0x400 + (m - 0xdc00)) :: p.1, p.2))
                  else none)
           | _ => none
         else none)
  | true, _ => none

/-- Body of a JSON string literal after the opening quote: returns the
decoded characters and the input remaining after the closing quote. -/
def parseStringBody (l : List Char) : Option (List Char × List Char) :=
  parseStrLoop false l

/-- Characters of a nonnegative integer literal. -/
def digitsToNat (ds : List Char) : Nat :=
  ds.foldl (fun acc c => acc * 10 + (c.toNat - '0'.toNat)) 0

/-- Exponent group `[eE][-+]?digits` of the JSON number regex: when the
digits are missing the group does not match and the input stays at `orig`. -/
def parseExpTail (rest orig : List Char) : Option Int × List Char :=
  let (eneg, l1) := match rest with
    | '+' :: r => (false, r)
    | '-' :: r => (true, r)
    | _ => (false, rest)
  let ds := l1.takeWhile Char.isDigit
  if ds = [] then (none, orig)
  else
    let e : Int := Int.ofNat (digitsToNat ds)
    (some (if eneg then -e else e), l1.drop ds.length)

/-- JSON number grammar (the regex used by `json.loads`): optional minus,
integer part without leading zeros, optional fraction group, optional
exponent group.  A number with fraction or exponent parses as a float
(`ratv`), otherwise as an integer (`intv`). -/
def parseNumber (l : List Char) : Option (JVal × List Char) :=
  let (neg, l1) := match l with
    | '-' :: rest => (true, rest)
    | _ => (false, l)
  let ip := l1.takeWhile Char.isDigit
  let l2 := l1.drop ip.length
  if ip = [] then none
  else if ip.length > 1 ∧ ip.headD '0' = '0' then none
  else
    let (frd, l3) := match l2 with
      | '.' :: rest =>
          let ds := rest.takeWhile Char.isDigit
          if ds = [] then ([], l2) else (ds, rest.drop ds.length)
      | _ => ([], l2)
    let (ex, l4) := match l3 with
      | 'e' :: rest => parseExpTail rest l3
      | 'E' :: rest => parseExpTail rest l3
      | _ => (none, l3)
    let mant : Int := Int.ofNat (digitsToNat (ip ++ frd))
    let mant := if neg then -mant else mant
    if frd = [] ∧ ex = none then
      some (JVal.intv mant, l2)
    else
      some (JVal.ratv ((mant : ℚ) *
        (10 : ℚ) ^ (ex.getD 0 - Int.ofNat frd.length)), l4)

/-- Mode of the recursive-descent scanner: a value, the members of an object
(with the mapping accumulated so far), or the items of an array. -/
inductive PMode where
  | value : PMode
  | members : List (String × JVal) → PMode
  | items : List JVal → PMode

/-- Recursive-descent JSON scanner; `fuel` bounds the recursion and is set
from the input length at the top level.  Object members follow Python
duplicate-key semantics via `insertReplace`. -/
def parseRun : Nat → PMode → List Char → Option (JVal × List Char)
  | 0, _, _ => none
  | fuel + 1, .value, l =>
    match l with
    | '\x7b' :: rest =>
        (match skipWs rest with
         | '\x7d' :: r2 => some (JVal.objv [], r2)
         | r => parseRun fuel (.members []) r)
    | '[' :: rest =>
        (match skipWs rest with
         | ']' :: r2 => some (JVal.arrv [], r2)
         | r => parseRun fuel (.items []) r)
    | '"' :: rest =>
        (match parseStringBody rest with
         | some (body, r) => some (JVal.strv (String.mk body), r)
         | none => none)
    | 't' :: 'r' :: 'u' :: 'e' :: rest => some (JVal.boolv true, rest)
    | 'f' :: 'a' :: 'l' :: 's' :: 'e' :: rest => some (JVal.boolv false, rest)
    | 'n' :: 'u' :: 'l' :: 'l' :: rest => some (JVal.null, rest)
    | _ => parseNumber l
  | fuel + 1, .members acc, l =>
    match l with
    | '"' :: rest =>
      (match parseStringBody rest with
       | none => none
       | some (key, r1) =>
         match skipWs r1 with
         | ':' :: r2 =>
           (match parseRun fuel .value (skipWs r2) with
            | none => none
            | some (v, r3) =>
              match skipWs r3 with
              | ',' :: r4 => parseRun fuel (.members (insertReplace acc (String.mk key) v)) (skipWs r4)
              | '\x7d' :: r4 => some (JVal.objv (insertReplace acc (String.mk key) v), r4)
              | _ => none)
         | _ => none)
    | _ => none
  | fuel + 1, .items acc, l =>
    match parseRun fuel .value l with
    | none => none
    | some (v, r1) =>
      match skipWs r1 with
      | ',' :: r2 => parseRun fuel (.items (acc ++ [v])) (skipWs r2)
      | ']' :: r2 => some (JVal.arrv (acc ++ [v]), r2)
      | _ => none

/-- Python `json.loads`: `none` models a raised `json.JSONDecodeError`. -/
def json_loads (s : String) : Option JVal :=
  match parseRun (s.data.length + 2) .value (skipWs s.data) with
  | some (v, rest) => if skipWs rest = [] then some v else none
  | none => none

/-- Four lowercase hex digits of a code unit, for `\uXXXX` escapes. -/
def toHex4 (n : Nat) : List Char :=
  let d := fun k => Nat.digitChar (n / 16 ^ k % 16)
  [d 3, d 2, d 1, d 0]

/-- Escape of one character under `json.dumps` defaults (`ensure_ascii=True`):
quote, backslash and the short escapes specially, every character outside
`0x20`–`0x7e` as `\uXXXX` (surrogate pairs beyond the BMP). -/
def jEscapeChar (c : Char) : List Char :=
  if c = '"' then ['\\', '"']
  else if c = '\\' then ['\\', '\\']
  else if c = '\n' then ['\\', 'n']
  else if c = '\t' then ['\\', 't']
  else if c = '\x0d' then ['\\', 'r']
  else if c = '\x08' then ['\\', 'b']
  else if c = '\x0c' then ['\\', 'f']
  else if 0x20 ≤ c.toNat ∧ c.toNat ≤ 0x7e then [c]
  else if c.toNat ≤ 0xffff then '\\' :: 'u' :: toHex4 c.toNat
  else
    let n := c.toNat - 0x10000
    ('\\' :: 'u' :: toHex4 (0xd800 + n / 0x400)) ++
      ('\\' :: 'u' :: toHex4 (0xdc00 + n % 0x400))

/-- Serialization of a string by `json.dumps`, quotes included. -/
def jEscapeString (s : String) : String :=
  String.mk ('"' :: s.data.foldr (fun c acc => jEscapeChar c ++ acc) ['"'])

/-- Fractional decimal digits of `rem / den`, up to `fuel` digits. -/
def fracDigits : Nat → Nat → Nat → List Char
  | 0, _, _ => []
  | _, 0, _ => []
  | fuel + 1, rem, den =>
      Nat.digitChar (rem * 10 / den) :: fracDigits fuel (rem * 10 % den) den

/-- Decimal rendering of a model float, as `repr` of a Python float renders
the dyadic rationals occurring in the pipeline (`0.0` ↦ `"0.0"`); expansion
is capped at 40 digits, enough for every dyadic of double precision. -/
def ratDecimalRepr (q : ℚ) : String :=
  let sign := if q < 0 then "-" else ""
  let num := q.num.natAbs
  let den := q.den
  let ip := num / den
  let rem := num % den
  let fs := if rem = 0 then ['0'] else fracDigits 40 rem den
  sign ++ toString ip ++ "." ++ String.mk fs

mutual

/-- Python `json.dumps` with default arguments: separators `", "` and
`": "`, `ensure_ascii=True`. -/
def json_dumps : JVal → String
  | .null => "null"
  | .boolv true => "true"
  | .boolv false => "false"
  | .intv i => toString i
  | .ratv q => ratDecimalRepr q
  | .strv s => jEscapeString s
  | .arrv [] => "[]"
  | .arrv (x :: xs) => "[" ++ jdumpItems (x :: xs) ++ "]"
  | .objv [] => "\x7b\x7d"
  | .objv (f :: fs) => "\x7b" ++ jdumpFields (f :: fs) ++ "\x7d"
termination_by structural v => v

/-- Comma-joined array items for `json_dumps`. -/
def jdumpItems : List JVal → String
  | [] => ""
  | [x] => json_dumps x
  | x :: y :: xs => json_dumps x ++ ", " ++ jdumpItems (y :: xs)
termination_by structural l => l

/-- Comma-joined object members for `json_dumps`. -/
def jdumpFields : List (String × JVal) → String
  | [] => ""
  | [(k, v)] => jEscapeString k ++ ": " ++ json_dumps v
  | (k, v) :: f :: fs => jEscapeString k ++ ": " ++ json_dumps v ++ ", " ++ jdumpFields (f :: fs)
termination_by structural l => l

end

/-- Values in a row returned by the SQLite store through
`core.database.execute_query`. -/
inductive DBVal where
  | dnull : DBVal
  | dint : Int → DBVal
  | dreal : ℚ → DBVal
  | dtext : String → DBVal
deriving DecidableEq

/-- Result of `execute_query` on a SELECT statement: the cursor column names
and the fetched rows. -/
structure DbResult where
  columns : List String
  rows : List (List DBVal)

/-- Python `value == 0` on a row value (`None` compares unequal and is
handled separately at the call site). -/
def dbEqZero : DBVal → Bool
  | .dint i => i = 0
  | .dreal q => q = 0
  | _ => false

/-- Test from `execute_sql_query`:
`any(agg in columns[0].upper() for agg in ['SUM', 'COUNT', 'AVG'])`. -/
def isAggName (c : String) : Bool :=
  strContains (pyUpper c) "SUM" ∨ strContains (pyUpper c) "COUNT" ∨
    strContains (pyUpper c) "AVG"

/-- Evaluation of `is_aggregate_zero` in `execute_sql_query`; the `.error`
case models the `IndexError` Python would raise on `results[0][0]` when the
lone row is empty (caught by the surrounding handler). -/
def aggZeroCheck (res : DbResult) : Except PyErr Bool :=
  if res.rows.length = 1 ∧ res.columns.length = 1 then
    match (res.rows.headD []).head? with
    | none => .error "tuple index out of range"
    | some v => .ok ((v = .dnull ∨ dbEqZero v) ∧ isAggName (res.columns.headD ""))
  else .ok false

/-- Conversion of one fetched row to the field-name→value mapping built by
`execute_sql_query` (`row_dict`), with `None` replaced by the string
`"NULL"`; duplicate column names follow Python `dict` update semantics. -/
def rowToObj (columns : List String) (row : List DBVal) : JVal :=
  .objv ((columns.zip row).foldl (fun acc p =>
    insertReplace acc p.1 (match p.2 with
      | .dnull => .strv "NULL"
      | .dint i => .intv i
      | .dreal q => .ratv q
      | .dtext s => .strv s)) [])

/-- Rejection message of the SELECT guard in `execute_sql_query`. -/
def sqlGuardMsg : String := "Only safe SELECT queries are permitted for data analysis."

/-- Shallow embedding of `features.ai_tools.execute_sql_query`, instrumented:
the second component lists the statements passed to the store
(`core.database.execute_query`, here the oracle `db`).  Returns the JSON
envelope string the source builds with `json.dumps`. -/
def execute_sql_queryT (db : String → Except PyErr DbResult) (query : String) :
    String × List String :=
  if ¬ pyStartsWith (pyUpper (pyStrip query)) "SELECT" then
    (json_dumps (.objv [("status", .strv "error"), ("message", .strv sqlGuardMsg)]), [])
  else
    match db query with
    | .error e =>
        (json_dumps (.objv [("status", .strv "error"),
          ("message", .strv ("Database Error: " ++ e))]), [query])
    | .ok res =>
        match aggZeroCheck res with
        | .error e =>
            (json_dumps (.objv [("status", .strv "error"),
              ("message", .strv ("Database Error: " ++ e))]), [query])
        | .ok isAggZero =>
            if res.rows = [] ∨ isAggZero then
              let clean_data : JVal :=
                if isAggZero then .objv [(res.columns.headD "", .ratv 0)] else .arrv []
              (json_dumps (.objv [("status", .strv "no_results"), ("data", clean_data),
                ("query", .strv query)]), [query])
            else
              (json_dumps (.objv [("status", .strv "success"),
                ("data", .arrv (res.rows.map (rowToObj res.columns)))]), [query])

/-- Uninstrumented result of `execute_sql_query`. -/
def execute_sql_query (db : String → Except PyErr DbResult) (query : String) : String :=
  (execute_sql_queryT db query).1

/-- Current date as seen by `datetime.date.today()` (only year and month are
consumed by the placeholder resolver). -/
structure PDate where
  year : Int
  month : Int

/-- Python `f"\x7bn:02d\x7d"`: zero-padding to width two; a sign counts
toward the width. -/
def pad2 (n : Int) : String :=
  if 0 ≤ n ∧ n < 10 then "0" ++ toString n else toString n

/-- Leading-zero test on the offset digits: `eval` in `replace_year` /
`replace_month` receives e.g. `2025+01`, and a leading zero makes the Python
literal invalid, so `eval` raises and the handler falls back to the base
value. -/
def offsetDigitsBad (ds : List Char) : Bool := ds.length > 1 ∧ ds.headD '0' = '0'

/-- Match of the regex tail `([+\-]\d+)?\x7d\x7d` directly after the token
name, returning the captured group (sign, digits) and the remaining input. -/
def offsetTail : List Char → Option (Option (Bool × List Char) × List Char)
  | '\x7d' :: '\x7d' :: rest => some (none, rest)
  | '+' :: rest =>
      let ds := rest.takeWhile Char.isDigit
      if ds = [] then none
      else
        (match rest.drop ds.length with
         | '\x7d' :: '\x7d' :: r2 => some (some (false, ds), r2)
         | _ => none)
  | '-' :: rest =>
      let ds := rest.takeWhile Char.isDigit
      if ds = [] then none
      else
        (match rest.drop ds.length with
         | '\x7d' :: '\x7d' :: r2 => some (some (true, ds), r2)
         | _ => none)
  | _ => none

/-- Replacement function `replace_year`: no group yields the current year;
an offset group is applied by `eval`, whose failure (leading-zero digits)
falls back to the current year. -/
def replaceYearTok (year : Int) : Option (Bool × List Char) → String
  | none => toString year
  | some (neg, ds) =>
      if offsetDigitsBad ds then toString year
      else
        toString (if neg then year - Int.ofNat (digitsToNat ds)
                  else year + Int.ofNat (digitsToNat ds))

/-- Replacement function `replace_month`: as `replace_year` but the result
is rendered zero-padded to two digits, without calendar wraparound. -/
def replaceMonthTok (month : Int) : Option (Bool × List Char) → String
  | none => pad2 month
  | some (neg, ds) =>
      if offsetDigitsBad ds then pad2 month
      else
        pad2 (if neg then month - Int.ofNat (digitsToNat ds)
              else month + Int.ofNat (digitsToNat ds))

/-- Single `re.sub` pass: leftmost non-overlapping occurrences of
`\x7b\x7b<tokName>([+\-]\d+)?\x7d\x7d` are replaced by `render` of the
captured group; the fuel is the input length (one unit per character
position, as the scan never revisits a position). -/
def scanSub (tokName : List Char) (render : Option (Bool × List Char) → String) :
    Nat → List Char → List Char
  | 0, l => l
  | _ + 1, [] => []
  | fuel + 1, c :: cs =>
      if List.isPrefixOf ('\x7b' :: '\x7b' :: tokName) (c :: cs) then
        match offsetTail ((c :: cs).drop (2 + tokName.length)) with
        | some (grp, rest) => (render grp).data ++ scanSub tokName render fuel rest
        | none => c :: scanSub tokName render fuel cs
      else c :: scanSub tokName render fuel cs

/-- Placeholder substitution block of `parse_and_execute_tool`: the year
pattern pass followed by the month pattern pass over the query text. -/
def resolveQuery (today : PDate) (q : String) : String :=
  let afterYear := scanSub "CURRENT_YEAR".data (replaceYearTok today.year)
    q.data.length q.data
  String.mk (scanSub "CURRENT_MONTH".data (replaceMonthTok today.month)
    afterYear.length afterYear)

/-- ANSI code of the `termcolor` color names used by the pipeline. -/
def colorCode : String → String
  | "red" => "31"
  | "green" => "32"
  | "yellow" => "33"
  | "magenta" => "35"
  | "white" => "37"
  | _ => "0"

/-- Model of `termcolor.colored(text, color)`. -/
def colored (text color : String) : String :=
  "\x1b[" ++ colorCode color ++ "m" ++ text ++ "\x1b[0m"

/-- Validated arguments of `SQLQueryArgs` (pydantic schema: required `query`
string). -/
structure SQLQueryArgsV where
  query : String

/-- Validated arguments of `ConversationArgs` (required `response` string). -/
structure ConversationArgsV where
  response : String

/-- Validated arguments of `SalaryAllowanceArgs` (required integers
`days_overseas`, `days_overtime`; optional float `base_salary`). -/
structure SalaryAllowanceArgsV where
  days_overseas : Int
  days_overtime : Int
  base_salary : Option ℚ

/-- Validated arguments of `DocumentExpiryArgs` (required integer
`target_year`; optional `target_month` constrained to 1–12). -/
structure DocumentExpiryArgsV where
  target_year : Int
  target_month : Option Int

/-- Lax string-to-int coercion of pydantic v2: optional sign and digits,
surrounding whitespace tolerated. -/
def parseIntStr (s : String) : Option Int :=
  let l := (pyStrip s).data
  let (neg, l1) := match l with
    | '-' :: r => (true, r)
    | '+' :: r => (false, r)
    | _ => (false, l)
  if l1 ≠ [] ∧ l1.all Char.isDigit then
    some (if neg then -Int.ofNat (digitsToNat l1) else Int.ofNat (digitsToNat l1))
  else none

/-- Lax string-to-float coercion of pydantic v2 for the decimal forms the
pipeline can meet (exponent and infinity forms are omitted; no claim uses
them). -/
def parseFloatStr (s : String) : Option ℚ :=
  let l := (pyStrip s).data
  let (neg, l1) := match l with
    | '-' :: r => (true, r)
    | '+' :: r => (false, r)
    | _ => (false, l)
  let ip := l1.takeWhile Char.isDigit
  let l2 := l1.drop ip.length
  let (fp, l3) := match l2 with
    | '.' :: r => (r.takeWhile Char.isDigit, r.drop (r.takeWhile Char.isDigit).length)
    | _ => ([], l2)
  if l3 = [] ∧ ip ++ fp ≠ [] then
    let q : ℚ := (Int.ofNat (digitsToNat (ip ++ fp)) : ℚ) / (10 : ℚ) ^ fp.length
    some (if neg then -q else q)
  else none

/-- Coercion to a string field: pydantic v2 accepts only strings. -/
def coerceStr : JVal → Option String
  | .strv s => some s
  | _ => none

/-- Coercion to an int field: ints, integral floats and numeric strings are
accepted; booleans are rejected (pydantic v2 lax mode). -/
def coerceInt : JVal → Option Int
  | .intv i => some i
  | .ratv q => if q.den = 1 then some q.num else none
  | .strv s => parseIntStr s
  | _ => none

/-- Coercion to a float field (pydantic v2 lax mode). -/
def coerceFloat : JVal → Option ℚ
  | .intv i => some (i : ℚ)
  | .ratv q => some q
  | .strv s => parseFloatStr s
  | _ => none

/-- Validation against `SQLQueryArgs`.  Unknown fields are ignored: the
pydantic `BaseModel` default is `extra=ignore`, and none of the four schemas
overrides it. -/
def validateSQLArgs (afs : List (String × JVal)) : Except PyErr SQLQueryArgsV :=
  match jlookup afs "query" with
  | none => .error "Field required: query"
  | some v =>
    match coerceStr v with
    | some s => .ok ⟨s⟩
    | none => .error "Input should be a valid string: query"

/-- Validation against `ConversationArgs` (unknown fields ignored). -/
def validateConversationArgs (afs : List (String × JVal)) : Except PyErr ConversationArgsV :=
  match jlookup afs "response" with
  | none => .error "Field required: response"
  | some v =>
    match coerceStr v with
    | some s => .ok ⟨s⟩
    | none => .error "Input should be a valid string: response"

/-- Validation of one optional field with a coercer: a missing key or an
explicit `null` yields `none`. -/
def optField (afs : List (String × JVal)) (key : String) (co : JVal → Option α) :
    Except PyErr (Option α) :=
  match jlookup afs key with
  | none => .ok none
  | some .null => .ok none
  | some v =>
    match co v with
    | some x => .ok (some x)
    | none => .error ("Input invalid: " ++ key)

/-- Validation against `SalaryAllowanceArgs` (unknown fields ignored). -/
def validateSalaryArgs (afs : List (String × JVal)) : Except PyErr SalaryAllowanceArgsV :=
  match jlookup afs "days_overseas" with
  | none => .error "Field required: days_overseas"
  | some v1 =>
    match coerceInt v1 with
    | none => .error "Input should be a valid integer: days_overseas"
    | some d1 =>
      match jlookup afs "days_overtime" with
      | none => .error "Field required: days_overtime"
      | some v2 =>
        match coerceInt v2 with
        | none => .error "Input should be a valid integer: days_overtime"
        | some d2 =>
          match optField afs "base_salary" coerceFloat with
          | .error e => .error e
          | .ok b => .ok ⟨d1, d2, b⟩

/-- Validation against `DocumentExpiryArgs` (unknown fields ignored;
`target_month` carries the schema bounds `ge=1`, `le=12`). -/
def validateDocumentArgs (afs : List (String × JVal)) : Except PyErr DocumentExpiryArgsV :=
  match jlookup afs "target_year" with
  | none => .error "Field required: target_year"
  | some v1 =>
    match coerceInt v1 with
    | none => .error "Input should be a valid integer: target_year"
    | some y =>
      match optField afs "target_month" coerceInt with
      | .error e => .error e
      | .ok none => .ok ⟨y, none⟩
      | .ok (some m) =>
        if 1 ≤ m ∧ m ≤ 12 then .ok ⟨y, some m⟩
        else .error "Input should be in the range 1 to 12: target_month"

/-- Salary configuration loaded from the settings table by
`core.data_manager.load_data` (the fields `query_salary_allowance` reads). -/
structure SalaryConfig where
  monthly_base : ℚ
  total_fiscal_days : ℚ
  overseas_allowance_rate : ℚ

/-- Ambient collaborators of the pipeline: the SQLite store behind
`core.database.execute_query`, the settings loader `load_data`, and the
local model handle (`llmLoaded` is `LLM_MODEL is not None`; `llmGenerate`
is one `llm(...)` invocation returning the completion text). -/
structure Oracles where
  db : String → Except PyErr DbResult
  loadData : Except PyErr SalaryConfig
  llmLoaded : Bool
  llmGenerate : String → Except PyErr String

/-- Rounding of `round_currency` in `calculate_allowance`: quantize to cents
with `ROUND_HALF_UP` (ties away from zero). -/
def roundCurrency (q : ℚ) : ℚ :=
  if 0 ≤ q then ((⌊q * 100 + 1 / 2⌋ : Int) : ℚ) / 100
  else -(((⌊-q * 100 + 1 / 2⌋ : Int) : ℚ) / 100)

/-- Shallow embedding of `features.salary_tracker.calculate_allowance`; a
zero fiscal-day count makes the Decimal division raise, and the handler
returns `(0.0, 0.0)`. -/
def calculate_allowance (base_salary total_fiscal_days overseas_days overtime_days
    rate_percent : ℚ) : ℚ × ℚ :=
  if total_fiscal_days = 0 then (0, 0)
  else
    let daily_rate := base_salary / total_fiscal_days
    (roundCurrency (daily_rate * overseas_days * (rate_percent / 100)),
      roundCurrency (daily_rate * overtime_days))

/-- Python `f"\x7bq:.2f\x7d"` on the rationals standing for floats. -/
def fmt2f (q : ℚ) : String :=
  let n : Int := if 0 ≤ q then ⌊q * 100 + 1 / 2⌋ else -⌊-q * 100 + 1 / 2⌋
  let sign := if n < 0 then "-" else ""
  let a := n.natAbs
  sign ++ toString (a / 100) ++ "." ++ (if a % 100 < 10 then "0" else "") ++ toString (a % 100)

/-- Shallow embedding of `query_salary_allowance`: reads the salary settings
(possible exception propagates to the dispatcher) and formats the allowance
summary sentence. -/
def query_salary_allowance (o : Oracles) (days_overseas days_overtime : Int)
    (base_salary : Option ℚ) : Except PyErr String := do
  let cfg ← o.loadData
  let base := base_salary.getD cfg.monthly_base
  let r := calculate_allowance base cfg.total_fiscal_days (days_overseas : ℚ)
    (days_overtime : ℚ) cfg.overseas_allowance_rate
  let total_earned := r.1 + r.2
  pure ("Based on a monthly salary of $" ++ fmt2f base ++ ", working " ++
    toString days_overseas ++ " overseas days and " ++ toString days_overtime ++
    " overtime days yields a total allowance of $" ++ fmt2f total_earned ++
    " (Allowance: $" ++ fmt2f r.1 ++ ", Overtime: $" ++ fmt2f r.2 ++ ").")

/-- Python `str()` of a row value, for the message formatting in
`query_document_expiry`. -/
def pyStrDB : DBVal → String
  | .dnull => "None"
  | .dint i => toString i
  | .dreal q => ratDecimalRepr q
  | .dtext s => s

/-- Shallow embedding of `query_document_expiry`, instrumented with the
statements sent to the store.  Store errors are caught locally; a fetched
row that is not a pair makes the tuple unpacking in the message
comprehension raise (propagating to the dispatcher). -/
def query_document_expiryT (o : Oracles) (target_year : Int) (target_month : Option Int) :
    Except PyErr String × List String :=
  let month_filter := match target_month with
    | some m => "AND STRFTIME(\x27%m\x27, expiry_date) = \x27" ++ pad2 m ++ "\x27"
    | none => ""
  let sql_query := "\n        SELECT name, expiry_date\n        FROM documents\n        WHERE STRFTIME(\x27%Y\x27, expiry_date) = \x27" ++ toString target_year ++
    "\x27 " ++ month_filter ++ "\n    "
  match o.db sql_query with
  | .error e => (.ok ("ERROR: Could not query database for expiry: " ++ e), [sql_query])
  | .ok res =>
    if res.rows = [] then
      let period_desc := match target_month with
        | none => "in the year " ++ toString target_year
        | some m => " in " ++ toString m ++ "/" ++ toString target_year
      (.ok ("No documents found expiring " ++ period_desc ++ "."), [sql_query])
    else
      if res.rows.all (fun r => r.length = 2) then
        (.ok ("Documents expiring in the requested period: " ++
          String.intercalate ", " (res.rows.map (fun r =>
            pyStrDB (r.headD .dnull) ++ " on " ++ pyStrDB ((r.drop 1).headD .dnull)))),
          [sql_query])
      else (.error "not enough values to unpack", [sql_query])

/-- Summary instruction template of `natural_language_summary`, after
`.format` fills the user query and the raw result JSON. -/
def summaryPrompt (user_query raw_result_json : String) : String :=
  "You are a helpful and supportive data analyst. The user\x27s original request was: \x27" ++
  user_query ++
  "\x27. The database operation returned the following JSON result: \x27" ++
  raw_result_json ++
  "\x27. Your primary task is to summarize the outcome conversationally for the user." ++
  "**CRITICAL INSTRUCTIONS:**" ++
  "1. **Success/No Results:** Summarize data clearly, using $X.YY for money and explicitly stating units (e.g., \x275 days\x27)." ++
  "2. **Error Handling:** If the \x27status\x27 is \x27error\x27, analyze the \x27message\x27 field (e.g., \x27Database Error: no such column\x27). Explain the error simply (e.g., \x27It looks like the column name was misspelled, please check table and column names\x27) and ask the user to rephrase their original request, referencing the potential mistake." ++
  "3. **Tone:** Be concise, supportive, and avoid technical jargon." ++
  "Output ONLY the final conversational summary."

/-- Shallow embedding of `natural_language_summary`: every failure is caught
locally and becomes an explanatory string. -/
def natural_language_summary (o : Oracles) (user_query raw_result_json : String) : String :=
  if o.llmLoaded = false then "Error: Cannot generate summary, LLM not loaded."
  else
    match o.llmGenerate (summaryPrompt user_query raw_result_json) with
    | .ok text => pyStrip text
    | .error e => "Error generating conversational summary: " ++ e

mutual

/-- Python `repr()` of a parsed JSON value (escape details inside embedded
strings are simplified; no claim inspects these renderings). -/
def pyRepr : JVal → String
  | .null => "None"
  | .boolv true => "True"
  | .boolv false => "False"
  | .intv i => toString i
  | .ratv q => ratDecimalRepr q
  | .strv s => "\x27" ++ s ++ "\x27"
  | .arrv [] => "[]"
  | .arrv (x :: xs) => "[" ++ pyReprItems (x :: xs) ++ "]"
  | .objv [] => "\x7b\x7d"
  | .objv (f :: fs) => "\x7b" ++ pyReprFields (f :: fs) ++ "\x7d"

/-- Comma-joined `repr` list items. -/
def pyReprItems : List JVal → String
  | [] => ""
  | [x] => pyRepr x
  | x :: y :: xs => pyRepr x ++ ", " ++ pyReprItems (y :: xs)

/-- Comma-joined `repr` dict members. -/
def pyReprFields : List (String × JVal) → String
  | [] => ""
  | [(k, v)] => "\x27" ++ k ++ "\x27: " ++ pyRepr v
  | (k, v) :: f :: fs => "\x27" ++ k ++ "\x27: " ++ pyRepr v ++ ", " ++ pyReprFields (f :: fs)

end

/-- Python `str()` of a parsed JSON value, as interpolated into f-strings. -/
def pyStr : JVal → String
  | .strv s => s
  | v => pyRepr v

/-- Keys of `ALLOWED_TOOLS`, the closed tool registry. -/
def allowedToolNames : List String :=
  ["respond_conversationally", "query_salary_allowance", "query_document_expiry",
    "execute_sql_query"]

/-- Python `function_name not in ALLOWED_TOOLS`: `None` and hashable
non-strings are simply not keys; unhashable values make the membership test
raise. -/
def pyNotInTools : Option JVal → Except PyErr Bool
  | none => .ok true
  | some (.strv n) => .ok (allowedToolNames.contains n = false)
  | some (.arrv _) => .error "unhashable type: \x27list\x27"
  | some (.objv _) => .error "unhashable type: \x27dict\x27"
  | some _ => .ok true

/-- Argument retrieval of `parse_and_execute_tool` (lines 371–381): the
`args` key wins, then `arguments`, then — only for the conversational tool —
a flat top-level `response` shortcut, and otherwise the empty mapping. -/
def extractFunctionArgs (fs : List (String × JVal)) (function_name : Option JVal) : JVal :=
  match jlookup fs "args" with
  | some a => a
  | none =>
    match jlookup fs "arguments" with
    | some a => a
    | none =>
      match function_name with
      | some (.strv n) =>
        if n = "respond_conversationally" then
          match jlookup fs "response" with
          | some r => .objv [("response", r)]
          | none => .objv []
        else .objv []
      | _ => .objv []

/-- Python `str()` of `response_json.get("function")`. -/
def pyStrOpt : Option JVal → String
  | none => "None"
  | some v => pyStr v

/-- Whitelist rejection message of the dispatcher (line 384). -/
def blockedToolMsg (function_name : Option JVal) : String :=
  "Error: Function \x27" ++ pyStrOpt function_name ++
    "\x27 is not a whitelisted tool. Execution is blocked."

/-- Validation failure message of the dispatcher (line 441). -/
def invalidArgsMsg (function_name : String) (detail : String) : String :=
  "Error: AI provided invalid arguments for tool \x27" ++ function_name ++
    "\x27. Details: " ++ detail

/-- Outcome of one dispatcher round: the produced result (`.error` is an
uncaught Python exception at that layer), the registry tool executors
invoked, and the statements that reached the store. -/
structure DispatchOut where
  res : Except PyErr String
  toolCalls : List String
  dbCalls : List String

/-- Test `raw_json_data.get("status") == "error"` on the reparsed tool
envelope. -/
def statusIsError (rfs : List (String × JVal)) : Bool :=
  match jlookup rfs "status" with
  | some (.strv st) => st = "error"
  | _ => false

/-- Branch of the dispatcher for `execute_sql_query`: placeholder
substitution on the `query` argument (defaulting a missing field to the
empty string), then schema validation, execution, summarization, and the
error/success coloring read back from the envelope status. -/
def runSqlTool (o : Oracles) (today : PDate) (function_args : JVal) : DispatchOut :=
  match function_args with
  | .objv afs =>
    (match jlookupD afs "query" (.strv "") with
     | .strv raw_query =>
       let resolved := resolveQuery today raw_query
       let afs2 := insertReplace afs "query" (.strv resolved)
       let user_query_for_summary := "SQL Query: " ++ resolved
       (match validateSQLArgs afs2 with
        | .error detail => ⟨.ok (invalidArgsMsg "execute_sql_query" detail), [], []⟩
        | .ok va =>
          let r := execute_sql_queryT o.db va.query
          let summary_result := natural_language_summary o user_query_for_summary r.1
          match json_loads r.1 with
          | some (.objv rfs) =>
            if statusIsError rfs then
              ⟨.ok (colored ("AI Assistant: " ++ summary_result) "red"),
                ["execute_sql_query"], r.2⟩
            else
              ⟨.ok (colored ("AI Assistant: " ++ summary_result) "green"),
                ["execute_sql_query"], r.2⟩
          | some _ =>
              ⟨.error "\x27list\x27 object has no attribute \x27get\x27",
                ["execute_sql_query"], r.2⟩
          | none =>
              ⟨.ok (colored ("AI Assistant: " ++ summary_result) "green"),
                ["execute_sql_query"], r.2⟩)
     | _ => ⟨.error "expected string or bytes-like object", [], []⟩)
  | _ => ⟨.error "object has no attribute \x27get\x27", [], []⟩

/-- Dispatch to the selected registry tool (the whitelist check has passed);
validation failures abort with the surfaced detail and without invoking the
executor. -/
def runNamedTool (o : Oracles) (today : PDate) (n : String) (function_args : JVal) :
    DispatchOut :=
  if n = "execute_sql_query" then runSqlTool o today function_args
  else
    match function_args with
    | .objv afs =>
      if n = "respond_conversationally" then
        match validateConversationArgs afs with
        | .error d => ⟨.ok (invalidArgsMsg n d), [], []⟩
        | .ok a =>
            ⟨.ok (colored ("AI Assistant: " ++ a.response) "white"),
              ["respond_conversationally"], []⟩
      else if n = "query_salary_allowance" then
        match validateSalaryArgs afs with
        | .error d => ⟨.ok (invalidArgsMsg n d), [], []⟩
        | .ok a =>
          match query_salary_allowance o a.days_overseas a.days_overtime a.base_salary with
          | .ok r => ⟨.ok ("AI Query Result: " ++ r), ["query_salary_allowance"], []⟩
          | .error e => ⟨.error e, ["query_salary_allowance"], []⟩
      else
        match validateDocumentArgs afs with
        | .error d => ⟨.ok (invalidArgsMsg n d), [], []⟩
        | .ok a =>
          let r := query_document_expiryT o a.target_year a.target_month
          match r.1 with
          | .ok t => ⟨.ok ("AI Query Result: " ++ t), ["query_document_expiry"], r.2⟩
          | .error e => ⟨.error e, ["query_document_expiry"], r.2⟩
    | _ => ⟨.error "argument after ** must be a mapping", [], []⟩

/-- Dispatcher body of `parse_and_execute_tool` after `json.loads`: the
`error` short-circuit, argument-shape probing, the whitelist check, and tool
execution.  Non-object documents raise at the `in` test or the `.get` call,
as in Python. -/
def dispatchProposal (o : Oracles) (today : PDate) (response_json : JVal) : DispatchOut :=
  match response_json with
  | .objv fs =>
    (match jlookup fs "error" with
     | some ev => ⟨.ok ("Error from LLM generation: " ++ pyStr ev), [], []⟩
     | none =>
       let function_name := jlookup fs "function"
       let function_args := extractFunctionArgs fs function_name
       match pyNotInTools function_name with
       | .error e => ⟨.error e, [], []⟩
       | .ok true => ⟨.ok (blockedToolMsg function_name), [], []⟩
       | .ok false =>
         match function_name with
         | some (.strv n) => runNamedTool o today n function_args
         | _ => ⟨.ok (blockedToolMsg function_name), [], []⟩)
  | .strv s =>
      if strContains s "error" then
        ⟨.error "string indices must be integers", [], []⟩
      else ⟨.error "\x27str\x27 object has no attribute \x27get\x27", [], []⟩
  | .arrv xs =>
      if xs.any (fun x => match x with | .strv t => t = "error" | _ => false) then
        ⟨.error "list indices must be integers", [], []⟩
      else ⟨.error "\x27list\x27 object has no attribute \x27get\x27", [], []⟩
  | _ => ⟨.error "argument of type is not iterable", [], []⟩

/-- Body of `parse_and_execute_tool` before its outer exception handler:
strict parse of the generation output, then dispatch. -/
def parse_and_execute_toolB (o : Oracles) (today : PDate) (llm_response_text : String) :
    DispatchOut :=
  match json_loads (pyStrip llm_response_text) with
  | none => ⟨.error "json.JSONDecodeError", [], []⟩
  | some response_json => dispatchProposal o today response_json

/-- Shallow embedding of `parse_and_execute_tool`: the outer
`except Exception` converts any escaping exception into the internal-error
string, so the returned `res` is always `.ok`. -/
def parse_and_execute_tool (o : Oracles) (today : PDate) (llm_response_text : String) :
    DispatchOut :=
  let b := parse_and_execute_toolB o today llm_response_text
  match b.res with
  | .ok r => ⟨.ok r, b.toolCalls, b.dbCalls⟩
  | .error e =>
      ⟨.ok (colored ("An unexpected internal error occurred during tool execution: " ++ e)
        "red"), b.toolCalls, b.dbCalls⟩

/-- Loop body of the brace-counting extraction in `call_local_llm`: the
depth counter after each character, with the end at the first position above
zero where the counter returns to zero. -/
def braceEndAux : List Char → Int → Nat → Option Nat
  | [], _, _ => none
  | c :: cs, brace_count, i =>
      let brace_count := if c = '\x7b' then brace_count + 1
        else if c = '\x7d' then brace_count - 1 else brace_count
      if brace_count = 0 ∧ i > 0 then some i else braceEndAux cs brace_count (i + 1)

/-- Index of the end of the first balanced brace group (`end_index`;
`none` models the sentinel `-1`). -/
def braceEnd (potential_json : List Char) : Option Nat := braceEndAux potential_json 0 0

/-- Sanitization applied to the raw model text before embedding it in the
error payload, the `replace` call of lines 351/353: each double quote
becomes two apostrophes, all other characters pass through unchanged. -/
def sanitizeRaw : List Char → List Char
  | [] => []
  | c :: cs =>
      if c = '"' then '\x27' :: '\x27' :: sanitizeRaw cs else c :: sanitizeRaw cs

/-- Characters of the fixed prefix of the extraction-failure payload. -/
def extractErrPrefix : List Char :=
  "\x7b\"error\": \"LLM output was not clean JSON. Raw text: ".data

/-- Extraction-failure payload of `call_local_llm` (lines 351 and 353),
built by f-string concatenation around the sanitized raw text. -/
def extractErrPayload (llm_output_text : String) : String :=
  String.mk (extractErrPrefix ++ sanitizeRaw llm_output_text.data ++ ['"', '\x7d'])

/-- Transport-failure payload of `call_local_llm` (line 317): the exception
text is embedded with no sanitization at all. -/
def llmTransportPayload (e : String) : String :=
  String.mk ("\x7b\"error\": \"LLM Inference Failed during call: ".data ++ e.data ++
    ['"', '\x7d'])

/-- JSON extraction of the Generation Client (`call_local_llm` lines
324–353) on the stripped model output: locate the first opening brace, scan
for the balanced close, strip and strictly parse the slice; every failure
path returns the error payload instead of raising. -/
def call_local_llm_extract (llm_output_text : String) : String :=
  match pyIndexChar llm_output_text.data '\x7b' with
  | none => extractErrPayload llm_output_text
  | some start_index =>
    let potential_json := llm_output_text.data.drop start_index
    match braceEnd potential_json with
    | none => extractErrPayload llm_output_text
    | some end_index =>
      let clean_json := String.mk (pyStripList (potential_json.take (end_index + 1)))
      match json_loads clean_json with
      | none => extractErrPayload llm_output_text
      | some _ => if clean_json = "" then extractErrPayload llm_output_text else clean_json

/-- Stub store used by concrete witnesses: one row, one column. -/
def dbStub : String → Except PyErr DbResult := fun _ => .ok ⟨["x"], [[.dint 1]]⟩

/-- Stub ambient environment used by concrete witnesses (model not loaded,
fixed salary settings). -/
def oStub : Oracles := ⟨dbStub, .ok ⟨5000, 22, 10⟩, false, fun _ => .ok "stub summary"⟩

/-- Fixed current date used by concrete witnesses. -/
def dStub : PDate := ⟨2025, 6⟩

set_option maxRecDepth 100000 in
/-- C9: with the current date fixed at 2025-06-15, placeholder resolution
maps `\x7b\x7bCURRENT_YEAR-1\x7d\x7d` to `2024`,
`\x7b\x7bCURRENT_MONTH+1\x7d\x7d` to the zero-padded `07`, and
`\x7b\x7bCURRENT_MONTH-6\x7d\x7d` to `00` with no calendar wraparound,
leaving all non-token text of the query unchanged. -/
theorem C9_placeholder_resolution_fixed_date :
    resolveQuery ⟨2025, 6⟩ "\x7b\x7bCURRENT_YEAR-1\x7d\x7d" = "2024" ∧
    resolveQuery ⟨2025, 6⟩ "\x7b\x7bCURRENT_MONTH+1\x7d\x7d" = "07" ∧
    resolveQuery ⟨2025, 6⟩ "\x7b\x7bCURRENT_MONTH-6\x7d\x7d" = "00" ∧
    resolveQuery ⟨2025, 6⟩
        "SELECT SUM(amount) FROM expenses WHERE SUBSTR(date, 1, 4) = \x27\x7b\x7bCURRENT_YEAR-1\x7d\x7d\x27 AND SUBSTR(date, 6, 2) = \x27\x7b\x7bCURRENT_MONTH+1\x7d\x7d\x27 OR SUBSTR(date, 6, 2) = \x27\x7b\x7bCURRENT_MONTH-6\x7d\x7d\x27" =
      "SELECT SUM(amount) FROM expenses WHERE SUBSTR(date, 1, 4) = \x272024\x27 AND SUBSTR(date, 6, 2) = \x2707\x27 OR SUBSTR(date, 6, 2) = \x2700\x27" :=
  ⟨rfl, rfl, rfl, rfl⟩

set_option maxRecDepth 100000 in
/-- C5: JSON extraction in the Generation Client is the brace-counting
algorithm: on the sample raw text it yields exactly the balanced object
slice, and on any raw text whose first opening brace is never rebalanced it
returns the GenerationFailure payload instead of raising. -/
theorem C5_brace_counting_extraction :
    call_local_llm_extract "Sure! \x7b\"function\": \"x\", \"args\": \x7b\"a\": 1\x7d\x7d thanks" =
        "\x7b\"function\": \"x\", \"args\": \x7b\"a\": 1\x7d\x7d" ∧
    ∀ (t : String) (i : Nat), pyIndexChar t.data '\x7b' = some i →
      braceEnd (t.data.drop i) = none →
      call_local_llm_extract t = extractErrPayload t := by
  refine ⟨by rfl, fun t i h1 h2 => ?_⟩
  simp only [call_local_llm_extract, h1, h2]

/-- Witness for C5: the unbalanced raw text `Oops \x7b"a": 1` produces the
GenerationFailure payload. -/
theorem C5_brace_counting_extraction_witness :
    call_local_llm_extract "Oops \x7b\"a\": 1" = extractErrPayload "Oops \x7b\"a\": 1" :=
  C5_brace_counting_extraction.2 "Oops \x7b\"a\": 1" 5 (by decide) (by decide)

/-- C2: for every input string and every behavior of the ambient
collaborators, `parse_and_execute_tool` resolves to an `.ok` string — no
exception crosses its boundary. -/
theorem C2_no_exception_escapes (o : Oracles) (today : PDate) (s : String) :
    ∃ r : String, (parse_and_execute_tool o today s).res = .ok r := by
  rcases h : (parse_and_execute_toolB o today s).res with e | r
  · exact ⟨colored ("An unexpected internal error occurred during tool execution: " ++ e)
      "red", by simp [parse_and_execute_tool, h]⟩
  · exact ⟨r, by simp [parse_and_execute_tool, h]⟩

/-- C3: a query whose stripped, uppercased surface form does not begin with
SELECT makes `execute_sql_query` return the error-status envelope without
any statement reaching the store. -/
theorem C3_select_guard (db : String → Except PyErr DbResult) (q : String)
    (h : pyStartsWith (pyUpper (pyStrip q)) "SELECT" = false) :
    execute_sql_queryT db q =
      ("\x7b\"status\": \"error\", \"message\": \"Only safe SELECT queries are permitted for data analysis.\"\x7d",
        []) := by
  simp only [execute_sql_queryT, h]
  exact if_pos (by simp)

set_option maxRecDepth 100000 in
/-- Witness for C3: a DROP statement is rejected without touching the
store. -/
theorem C3_select_guard_witness :
    execute_sql_queryT dbStub "DROP TABLE expenses" =
      ("\x7b\"status\": \"error\", \"message\": \"Only safe SELECT queries are permitted for data analysis.\"\x7d",
        []) :=
  C3_select_guard dbStub "DROP TABLE expenses" (by decide)

/-- C10: argument extraction precedence: `args` wins, then `arguments`,
then — only for the conversational tool — the flat top-level `response`
shortcut, and otherwise the empty mapping. -/
theorem C10_argument_precedence :
    (∀ fs fn a, jlookup fs "args" = some a → extractFunctionArgs fs fn = a) ∧
    (∀ fs fn a, jlookup fs "args" = none → jlookup fs "arguments" = some a →
      extractFunctionArgs fs fn = a) ∧
    (∀ fs r, jlookup fs "args" = none → jlookup fs "arguments" = none →
      jlookup fs "response" = some r →
      extractFunctionArgs fs (some (.strv "respond_conversationally")) =
        .objv [("response", r)]) ∧
    (∀ fs fn, jlookup fs "args" = none → jlookup fs "arguments" = none →
      (fn = some (.strv "respond_conversationally") → jlookup fs "response" = none) →
      extractFunctionArgs fs fn = .objv []) := by
  refine ⟨fun fs fn a h => ?_, fun fs fn a h1 h2 => ?_, fun fs r h1 h2 h3 => ?_,
    fun fs fn h1 h2 h3 => ?_⟩
  · simp only [extractFunctionArgs, h]
  · simp only [extractFunctionArgs, h1, h2]
  · simp only [extractFunctionArgs, h1, h2, h3]; rfl
  · simp only [extractFunctionArgs, h1, h2]
    match fn with
    | none => rfl
    | some .null => rfl
    | some (.boolv b) => rfl
    | some (.intv i) => rfl
    | some (.ratv q) => rfl
    | some (.arrv xs) => rfl
    | some (.objv gs) => rfl
    | some (.strv n) =>
      by_cases hn : n = "respond_conversationally"
      · subst hn
        simp [h3 rfl]
      · simp only [if_neg hn]

/-- Witness for C10: the flat `response` shortcut applies to the
conversational tool. -/
theorem C10_argument_precedence_witness :
    extractFunctionArgs [("response", .strv "hi")] (some (.strv "respond_conversationally")) =
      .objv [("response", .strv "hi")] :=
  C10_argument_precedence.2.2.1 [("response", .strv "hi")] (.strv "hi") rfl rfl rfl

/-- C1: a parsed proposal object without the `error` short-circuit key whose
function name is not a registry key makes the dispatcher return the
blocked-execution message, with no tool executor invoked and no statement
reaching the store. -/
theorem C1_unknown_tool_blocked (o : Oracles) (today : PDate) (s : String)
    (fs : List (String × JVal))
    (hparse : json_loads (pyStrip s) = some (.objv fs))
    (herr : jlookup fs "error" = none)
    (hfn : pyNotInTools (jlookup fs "function") = .ok true) :
    parse_and_execute_tool o today s =
      ⟨.ok (blockedToolMsg (jlookup fs "function")), [], []⟩ := by
  unfold parse_and_execute_tool parse_and_execute_toolB
  simp only [hparse, dispatchProposal, herr, hfn]

set_option maxRecDepth 100000 in
/-- Witness for C1: the proposal naming `launch_missiles` is blocked. -/
theorem C1_unknown_tool_blocked_witness :
    parse_and_execute_tool oStub dStub "\x7b\"function\": \"launch_missiles\", \"args\": \x7b\x7d\x7d" =
      ⟨.ok (blockedToolMsg (jlookup [("function", JVal.strv "launch_missiles"),
        ("args", JVal.objv [])] "function")), [], []⟩ :=
  C1_unknown_tool_blocked oStub dStub _
    [("function", JVal.strv "launch_missiles"), ("args", JVal.objv [])] (by rfl) (by rfl)
    (by rfl)

set_option maxRecDepth 100000 in
/-- Counterexample for C4: a parsed `execute_sql_query` proposal whose
arguments lack the required `query` field does not abort at validation — the
tool executor IS invoked (the missing field is defaulted to the empty string
by the placeholder block, which runs before validation). -/
theorem C4_counterexample_missing_query_tool_runs :
    (parse_and_execute_tool oStub dStub
      "\x7b\"function\": \"execute_sql_query\", \"args\": \x7b\x7d\x7d").toolCalls =
      ["execute_sql_query"] := by rfl

/-- C4 amended: placeholder resolution touches only the structured-query
tool and runs before schema validation, not after: a proposal with no
`query` argument still executes the tool (on the defaulted empty query,
which the executor guard rejects without touching the store); the store only
ever receives the resolved query text; and the conversational tool's text is
delivered verbatim, tokens left unresolved. -/
theorem C4_amended_resolution_before_validation :
    (∀ (o : Oracles) (today : PDate),
      (dispatchProposal o today (.objv [("function", .strv "execute_sql_query"),
        ("args", .objv [])])).toolCalls = ["execute_sql_query"] ∧
      (dispatchProposal o today (.objv [("function", .strv "execute_sql_query"),
        ("args", .objv [])])).dbCalls = []) ∧
    (∀ db : String → Except PyErr DbResult,
      execute_sql_queryT db "" =
        ("\x7b\"status\": \"error\", \"message\": \"Only safe SELECT queries are permitted for data analysis.\"\x7d",
          [])) ∧
    (∀ (o : Oracles) (today : PDate) (rq : String),
      (dispatchProposal o today (.objv [("function", .strv "execute_sql_query"),
        ("args", .objv [("query", .strv rq)])])).dbCalls =
        (execute_sql_queryT o.db (resolveQuery today rq)).2) ∧
    (∀ (o : Oracles) (today : PDate) (r : String),
      dispatchProposal o today (.objv [("function", .strv "respond_conversationally"),
        ("args", .objv [("response", .strv r)])]) =
        ⟨.ok (colored ("AI Assistant: " ++ r) "white"), ["respond_conversationally"], []⟩) := by
  refine ⟨fun o today => ⟨rfl, rfl⟩, fun db => by rfl, fun o today rq => ?_, fun o today r => rfl⟩
  simp [dispatchProposal, runNamedTool, runSqlTool, extractFunctionArgs, jlookup,
    jlookupD, pyNotInTools, validateSQLArgs, coerceStr, allowedToolNames]
  split <;> (try split) <;> rfl

set_option maxRecDepth 100000 in
/-- Counterexample for C8: an arguments mapping with the unknown field
`bogus` is not rejected — validation ignores it and the tool executor runs
(pydantic default extra-field behavior). -/
theorem C8_counterexample_unknown_field_accepted :
    (parse_and_execute_tool oStub dStub
      "\x7b\"function\": \"execute_sql_query\", \"args\": \x7b\"query\": \"SELECT 1\", \"bogus\": 5\x7d\x7d").toolCalls =
      ["execute_sql_query"] := by rfl

/-- C8 amended: a field name not declared in the selected tool's schema is
silently ignored by argument validation (the pydantic `BaseModel` default is
`extra=ignore`): validation succeeds on the declared fields and the tool
executor is invoked. -/
theorem C8_amended_unknown_fields_ignored (o : Oracles) (today : PDate)
    (q k : String) (v : JVal) (_hk : k ≠ "query") :
    validateSQLArgs [("query", .strv q), (k, v)] = .ok ⟨q⟩ ∧
    (dispatchProposal o today (.objv [("function", .strv "execute_sql_query"),
      ("args", .objv [("query", .strv q), (k, v)])])).toolCalls =
      ["execute_sql_query"] := by
  refine ⟨rfl, ?_⟩
  simp [dispatchProposal, runNamedTool, runSqlTool, extractFunctionArgs, jlookup,
    jlookupD, pyNotInTools, validateSQLArgs, coerceStr, allowedToolNames]
  split <;> (try split) <;> rfl

/-- Witness for C8 amended: the concrete unknown field `bogus` is ignored
and the executor runs. -/
theorem C8_amended_unknown_fields_ignored_witness :
    validateSQLArgs [("query", .strv "SELECT 1"), ("bogus", .intv 5)] =
      .ok ⟨"SELECT 1"⟩ ∧
    (dispatchProposal oStub dStub (.objv [("function", .strv "execute_sql_query"),
      ("args", .objv [("query", .strv "SELECT 1"), ("bogus", .intv 5)])])).toolCalls =
      ["execute_sql_query"] :=
  C8_amended_unknown_fields_ignored oStub dStub "SELECT 1" "bogus" (.intv 5) (by decide)

/-- Stub store returning an aggregate NULL over zero matching rows. -/
def dbAggStub : String → Except PyErr DbResult := fun _ => .ok ⟨["SUM(days)"], [[.dnull]]⟩

/-- Stub store returning no rows. -/
def dbEmptyStub : String → Except PyErr DbResult := fun _ => .ok ⟨["name"], []⟩

/-- C7: an aggregate SELECT whose result over zero matching rows is one
NULL-or-zero cell in one SUM/COUNT/AVG-named column yields the `no_results`
envelope with the zero-valued mapping payload, while a query with zero rows
yields `no_results` with the empty-list payload; the two payloads are
distinguishable. -/
theorem C7_aggregate_empty_distinction :
    (∀ (db : String → Except PyErr DbResult) (q c : String) (v : DBVal),
      pyStartsWith (pyUpper (pyStrip q)) "SELECT" = true →
      db q = .ok ⟨[c], [[v]]⟩ →
      (v = .dnull ∨ dbEqZero v = true) →
      isAggName c = true →
      execute_sql_queryT db q =
        (json_dumps (.objv [("status", .strv "no_results"),
          ("data", .objv [(c, .ratv 0)]), ("query", .strv q)]), [q])) ∧
    (∀ (db : String → Except PyErr DbResult) (q : String) (cols : List String),
      pyStartsWith (pyUpper (pyStrip q)) "SELECT" = true →
      db q = .ok ⟨cols, []⟩ →
      execute_sql_queryT db q =
        (json_dumps (.objv [("status", .strv "no_results"),
          ("data", .arrv []), ("query", .strv q)]), [q])) ∧
    json_dumps (.objv [("SUM(amount)", .ratv 0)]) ≠ json_dumps (.arrv ([] : List JVal)) := by
  refine ⟨fun db q c v hg hdb hv hagg => ?_, fun db q cols hg hdb => ?_, by decide⟩
  · have hz : (v = DBVal.dnull ∨ dbEqZero v = true) = True := by simp [hv]
    simp [execute_sql_queryT, hg, hdb, aggZeroCheck, hagg, hv]
  · simp [execute_sql_queryT, hg, hdb, aggZeroCheck]

set_option maxRecDepth 100000 in
/-- Witness for C7: the SUM-over-nothing case and the plain empty case on
concrete stores. -/
theorem C7_aggregate_empty_distinction_witness :
    execute_sql_queryT dbAggStub "SELECT SUM(days) FROM leave_logs" =
      (json_dumps (.objv [("status", .strv "no_results"),
        ("data", .objv [("SUM(days)", .ratv 0)]),
        ("query", .strv "SELECT SUM(days) FROM leave_logs")]),
        ["SELECT SUM(days) FROM leave_logs"]) ∧
    execute_sql_queryT dbEmptyStub "SELECT name FROM documents" =
      (json_dumps (.objv [("status", .strv "no_results"), ("data", .arrv []),
        ("query", .strv "SELECT name FROM documents")]),
        ["SELECT name FROM documents"]) :=
  ⟨C7_aggregate_empty_distinction.1 dbAggStub "SELECT SUM(days) FROM leave_logs"
      "SUM(days)" .dnull (by decide) rfl (Or.inl rfl) (by decide),
    C7_aggregate_empty_distinction.2.1 dbEmptyStub "SELECT name FROM documents"
      ["name"] (by decide) rfl⟩

/-- Unfolding of the string-literal scanner on one ordinary character. -/
theorem parseStrLoop_false_cons (c : Char) (cs : List Char) :
    parseStrLoop false (c :: cs) =
      if c = '"' then some ([], cs)
      else if c = '\\' then parseStrLoop true cs
      else if c.toNat < 0x20 then none
      else (parseStrLoop false cs).map (fun p => (c :: p.1, p.2)) := rfl

/-- The scanner consumes a body of plain characters (no quote, no backslash,
no control character) verbatim up to the closing quote. -/
theorem parseStrLoop_plain (body : List Char)
    (h : ∀ c ∈ body, ¬ c = '"' ∧ ¬ c = '\\' ∧ 0x20 ≤ c.toNat) :
    ∀ rest : List Char, parseStrLoop false (body ++ '"' :: rest) = some (body, rest) := by
  induction body with
  | nil => intro rest; rfl
  | cons c cs ih =>
    intro rest
    obtain ⟨h1, h2, h3⟩ := h c (List.mem_cons_self c cs)
    rw [List.cons_append, parseStrLoop_false_cons, if_neg h1, if_neg h2,
      if_neg (by omega), ih (fun x hx => h x (List.mem_cons_of_mem c hx)) rest]
    rfl

/-- Quote sanitization yields only plain characters when the input has no
backslash and no control character. -/
theorem sanitizeRaw_plain (l : List Char) (h : ∀ c ∈ l, ¬ c = '\\' ∧ 0x20 ≤ c.toNat) :
    ∀ c ∈ sanitizeRaw l, ¬ c = '"' ∧ ¬ c = '\\' ∧ 0x20 ≤ c.toNat := by
  induction l with
  | nil => simp [sanitizeRaw]
  | cons c cs ih =>
    intro x hx
    obtain ⟨h1, h2⟩ := h c (List.mem_cons_self c cs)
    have hrec := ih (fun y hy => h y (List.mem_cons_of_mem c hy))
    by_cases hq : c = '"'
    · rw [sanitizeRaw, if_pos hq] at hx
      rcases List.mem_cons.mp hx with rfl | hx2
      · exact ⟨by decide, by decide, by decide⟩
      · rcases List.mem_cons.mp hx2 with rfl | hx3
        · exact ⟨by decide, by decide, by decide⟩
        · exact hrec x hx3
    · rw [sanitizeRaw, if_neg hq] at hx
      rcases List.mem_cons.mp hx with rfl | hx2
      · exact ⟨hq, h1, h2⟩
      · exact hrec x hx2

set_option maxHeartbeats 2000000 in
/-- Scanner lemma lifted to the value parser: a string literal over a plain
body parses to that body. -/
theorem parseRun_value_string (g : Nat) (body rest : List Char)
    (h : ∀ c ∈ body, ¬ c = '"' ∧ ¬ c = '\\' ∧ 0x20 ≤ c.toNat) :
    parseRun (g + 1) .value ('"' :: (body ++ '"' :: rest)) =
      some (.strv (String.mk body), rest) := by
  have hb := parseStrLoop_plain body h rest
  rw [parseRun]
  rw [show parseStringBody (body ++ '"' :: rest) = parseStrLoop false (body ++ '"' :: rest)
    from rfl]
  rw [hb]

set_option maxHeartbeats 2000000 in
/-- Member parse of the singleton `error` object whose value is a string
literal over a plain body. -/
theorem parseRun_error_member (g : Nat) (body : List Char)
    (h : ∀ c ∈ body, ¬ c = '"' ∧ ¬ c = '\\' ∧ 0x20 ≤ c.toNat) :
    parseRun (g + 2) (.members [])
      ('"' :: 'e' :: 'r' :: 'r' :: 'o' :: 'r' :: '"' :: ':' :: ' ' :: '"' ::
        (body ++ ['"', '\x7d'])) =
      some (.objv [("error", .strv (String.mk body))], []) := by
  have hval := parseRun_value_string g body ['\x7d'] h
  show (match parseRun (g + 1) PMode.value ('"' :: (body ++ ['"', '\x7d'])) with
    | none => none
    | some (v, r3) =>
      match skipWs r3 with
      | ',' :: r4 => parseRun (g + 1)
          (PMode.members (insertReplace [] (String.mk ['e', 'r', 'r', 'o', 'r']) v))
          (skipWs r4)
      | '\x7d' :: r4 =>
          some (JVal.objv (insertReplace [] (String.mk ['e', 'r', 'r', 'o', 'r']) v), r4)
      | _ => none) = _
  rw [hval]
  rfl

set_option maxHeartbeats 2000000 in
/-- Value parse of the singleton `error` object. -/
theorem parseRun_error_value (f : Nat) (body : List Char)
    (h : ∀ c ∈ body, ¬ c = '"' ∧ ¬ c = '\\' ∧ 0x20 ≤ c.toNat) :
    parseRun (f + 3) .value
      ('\x7b' :: '"' :: 'e' :: 'r' :: 'r' :: 'o' :: 'r' :: '"' :: ':' :: ' ' :: '"' ::
        (body ++ ['"', '\x7d'])) =
      some (.objv [("error", .strv (String.mk body))], []) := by
  show parseRun (f + 2) (.members [])
    ('"' :: 'e' :: 'r' :: 'r' :: 'o' :: 'r' :: '"' :: ':' :: ' ' :: '"' ::
      (body ++ ['"', '\x7d'])) =
    some (.objv [("error", .strv (String.mk body))], [])
  exact parseRun_error_member f body h

set_option maxHeartbeats 2000000 in
/-- Parse of the whole singleton `error` payload by `json.loads`, for every
plain string-body. -/
theorem json_loads_error_object (body : List Char)
    (h : ∀ c ∈ body, ¬ c = '"' ∧ ¬ c = '\\' ∧ 0x20 ≤ c.toNat) :
    json_loads (String.mk ('\x7b' :: '"' :: 'e' :: 'r' :: 'r' :: 'o' :: 'r' :: '"' :: ':' ::
      ' ' :: '"' :: (body ++ ['"', '\x7d']))) =
      some (.objv [("error", .strv (String.mk body))]) := by
  have hlen : ('\x7b' :: '"' :: 'e' :: 'r' :: 'r' :: 'o' :: 'r' :: '"' :: ':' :: ' ' :: '"' ::
      (body ++ ['"', '\x7d'])).length + 2 = (body.length + 12) + 3 := by
    simp [List.length_cons, List.length_append]
  have hv := parseRun_error_value (body.length + 12) body h
  show (match parseRun
      (('\x7b' :: '"' :: 'e' :: 'r' :: 'r' :: 'o' :: 'r' :: '"' :: ':' :: ' ' :: '"' ::
        (body ++ ['"', '\x7d'])).length + 2) .value
      ('\x7b' :: '"' :: 'e' :: 'r' :: 'r' :: 'o' :: 'r' :: '"' :: ':' :: ' ' :: '"' ::
        (body ++ ['"', '\x7d'])) with
    | some (v, rest) => if skipWs rest = [] then some v else none
    | none => none) = _
  rw [hlen, hv]
  rfl

set_option maxRecDepth 100000 in
/-- Counterexample for C6: a raw model output consisting of one backslash
produces an extraction-failure payload that is NOT parseable JSON — the
sanitization replaces quotes only, and the embedded backslash corrupts the
payload. -/
theorem C6_counterexample_backslash_payload :
    call_local_llm_extract "\\" = extractErrPayload "\\" ∧
    json_loads (extractErrPayload "\\") = none := ⟨by rfl, by rfl⟩

/-- C6 amended: the Generation Client error payloads are parseable JSON with
an `error` field whenever the embedded text contains no backslash and no
control character (quotes in raw model output are sanitized to apostrophe
pairs); the transport-failure payload additionally requires the exception
text to be quote-free, since it is embedded with no sanitization at all. -/
theorem C6_amended_error_payloads_parseable :
    (∀ t : String, (∀ c ∈ t.data, ¬ c = '\\' ∧ 0x20 ≤ c.toNat) →
      json_loads (extractErrPayload t) =
        some (.objv [("error", .strv (String.mk
          ("LLM output was not clean JSON. Raw text: ".data ++ sanitizeRaw t.data)))])) ∧
    (∀ e : String, (∀ c ∈ e.data, ¬ c = '"' ∧ ¬ c = '\\' ∧ 0x20 ≤ c.toNat) →
      json_loads (llmTransportPayload e) =
        some (.objv [("error", .strv (String.mk
          ("LLM Inference Failed during call: ".data ++ e.data)))])) := by
  constructor
  · intro t ht
    have hbody : ∀ c ∈ ("LLM output was not clean JSON. Raw text: ".data ++
        sanitizeRaw t.data), ¬ c = '"' ∧ ¬ c = '\\' ∧ 0x20 ≤ c.toNat := by
      have hmsg : ∀ c ∈ "LLM output was not clean JSON. Raw text: ".data,
          ¬ c = '"' ∧ ¬ c = '\\' ∧ 0x20 ≤ c.toNat := by decide
      intro c hc
      rcases List.mem_append.mp hc with hc1 | hc2
      · exact hmsg c hc1
      · exact sanitizeRaw_plain t.data ht c hc2
    have hpay : extractErrPayload t = String.mk ('\x7b' :: '"' :: 'e' :: 'r' :: 'r' :: 'o' ::
        'r' :: '"' :: ':' :: ' ' :: '"' ::
        (("LLM output was not clean JSON. Raw text: ".data ++ sanitizeRaw t.data) ++
          ['"', '\x7d'])) := by
      have hpre : extractErrPrefix = '\x7b' :: '"' :: 'e' :: 'r' :: 'r' :: 'o' :: 'r' ::
          '"' :: ':' :: ' ' :: '"' :: "LLM output was not clean JSON. Raw text: ".data := by
        decide
      rw [extractErrPayload, hpre]
      simp [List.cons_append, List.append_assoc]
    rw [hpay]
    exact json_loads_error_object _ hbody
  · intro e he
    have hbody : ∀ c ∈ ("LLM Inference Failed during call: ".data ++ e.data),
        ¬ c = '"' ∧ ¬ c = '\\' ∧ 0x20 ≤ c.toNat := by
      have hmsg : ∀ c ∈ "LLM Inference Failed during call: ".data,
          ¬ c = '"' ∧ ¬ c = '\\' ∧ 0x20 ≤ c.toNat := by decide
      intro c hc
      rcases List.mem_append.mp hc with hc1 | hc2
      · exact hmsg c hc1
      · exact he c hc2
    have hpay : llmTransportPayload e = String.mk ('\x7b' :: '"' :: 'e' :: 'r' :: 'r' ::
        'o' :: 'r' :: '"' :: ':' :: ' ' :: '"' ::
        (("LLM Inference Failed during call: ".data ++ e.data) ++ ['"', '\x7d'])) := by
      have hpre : "\x7b\"error\": \"LLM Inference Failed during call: ".data =
          '\x7b' :: '"' :: 'e' :: 'r' :: 'r' :: 'o' :: 'r' :: '"' :: ':' :: ' ' :: '"' ::
          "LLM Inference Failed during call: ".data := by
        decide
      rw [llmTransportPayload, hpre]
      simp [List.cons_append, List.append_assoc]
    rw [hpay]
    exact json_loads_error_object _ hbody

set_option maxRecDepth 100000 in
/-- Witness for C6 amended: a raw output with embedded quotes and a plain
exception text both yield parseable `error` payloads. -/
theorem C6_amended_error_payloads_parseable_witness :
    json_loads (extractErrPayload "hello \"world\"") =
      some (.objv [("error", .strv (String.mk
        ("LLM output was not clean JSON. Raw text: ".data ++
          sanitizeRaw ("hello \"world\"").data)))]) ∧
    json_loads (llmTransportPayload "model file missing") =
      some (.objv [("error", .strv (String.mk
        ("LLM Inference Failed during call: ".data ++ ("model file missing").data)))]) :=
  ⟨C6_amended_error_payloads_parseable.1 "hello \"world\"" (by decide),
    C6_amended_error_payloads_parseable.2 "model file missing" (by decide)⟩
